import Mathlib

/-!
Shallow embedding of the call-control core of the sipjs-book-example-app
repository: the session controller (`useCallSession`, `src/unnamed/part_003`,
mirrored by the handlers in `src/src/App.tsx`), the connection controller
(`src/src/hooks/useSipConnection.ts`), the config hook
(`src/src/hooks/useSipConfig.ts`) and the media bridge
(`src/src/hooks/useAudioStream.ts`).

Asynchronous external primitives (`invite`, `accept`, `bye`,
`SimpleUser.connect`) are modelled by a boolean outcome parameter chosen by
the environment: `true` means the awaited promise resolved, `false` means it
rejected and the corresponding `catch` block of the source runs.  React
`useState` / `useRef` cells become fields of an explicit state record; each
source function becomes a pure state transformer.
-/

namespace SipApp

/-- Call state enum, from `src/@types/sip.types.ts`
(`'calling' | 'ending' | 'idle' | 'in-call' | 'ringing'`). -/
inductive CallStatus where
  | idle
  | calling
  | ringing
  | inCall
  | ending
deriving DecidableEq, Repr

/-- Connection state enum, from `src/@types/sip.types.ts`
(`'connected' | 'connecting' | 'disconnected' | 'error'`). -/
inductive ConnectionStatus where
  | disconnected
  | connecting
  | connected
  | error
deriving DecidableEq, Repr

/-- SIP configuration record, from `src/@types/sip.types.ts`. -/
structure SipConfig where
  url : String
  username : String
  password : String
deriving DecidableEq, Repr

/-- A remote media track (WebRTC `MediaStreamTrack`), identified abstractly. -/
structure MediaTrack where
  id : Nat
deriving DecidableEq, Repr

/-- An inbound media receiver (WebRTC `RTCRtpReceiver`): exposes one track. -/
structure Receiver where
  track : MediaTrack
deriving DecidableEq, Repr

/-- The media-transport object (WebRTC `RTCPeerConnection`) reachable from a
session's `sessionDescriptionHandler`: enumerable inbound receivers. -/
structure PeerConnection where
  receivers : List Receiver
deriving DecidableEq, Repr

/-- The playback sink (the hidden `<audio>` element): a settable stream
source (`srcObject`, the track list of the assigned `MediaStream`) and a
playing flag set by `play()`. -/
structure AudioElement where
  srcObject : Option (List MediaTrack)
  playing : Bool
deriving DecidableEq, Repr

/-- Variant of a sip.js session handle: outbound `Inviter` vs inbound
`Invitation` (the `instanceof` checks in the source dispatch on this). -/
inductive SessionVariant where
  | inviter
  | invitation
deriving DecidableEq, Repr

/-- sip.js `SessionState` enum
(`Initial | Establishing | Established | Terminating | Terminated`). -/
inductive SessState where
  | initialState
  | establishing
  | established
  | terminating
  | terminated
deriving DecidableEq, Repr

/-- A session handle (`Inviter | Invitation`): its variant, the remote
identity user part (`remoteIdentity.uri.user`, possibly absent) and the
media-transport object reachable through `sessionDescriptionHandler`
(possibly absent, e.g. before negotiation or after teardown). -/
structure Session where
  variant : SessionVariant
  remoteUser : Option String
  pc : Option PeerConnection
deriving DecidableEq, Repr

/-- Embeds `setupAudioSession` from `src/src/hooks/useAudioStream.ts` (lines
25-50): pulls `peerConnection` off the session's description handler; when
both it and the audio element exist, builds a fresh `MediaStream` from the
tracks of all receivers; if that stream has at least one track, assigns it
to `srcObject` and starts playback; otherwise leaves the element untouched.
Failure to retrieve the transport leaves the sink unchanged (the guard and
the surrounding try/catch). -/
def setupAudioSession (session : Session) (audioRef : Option AudioElement) :
    Option AudioElement :=
  match session.pc, audioRef with
  | some peerConnection, some audioElem =>
      let remoteStream : List MediaTrack :=
        peerConnection.receivers.map (fun receiver => receiver.track)
      if remoteStream.length > 0 then
        some { srcObject := some remoteStream, playing := true }
      else
        some audioElem
  | _, _ => audioRef

/-- Field selector for `SipConfig`, standing for `keyof SipConfig`. -/
inductive SipField where
  | url
  | username
  | password
deriving DecidableEq, Repr

/-- Embeds `updateSipConfig` from `src/src/hooks/useSipConfig.ts` (lines 30-35):
`setSipConfig(prev => ({ ...prev, [field]: value }))` — replace the one
named field, spread the rest. -/
def updateSipConfig (field : SipField) (value : String) (prev : SipConfig) :
    SipConfig :=
  match field with
  | .url => { prev with url := value }
  | .username => { prev with username := value }
  | .password => { prev with password := value }

/-- Embeds `isSipConfigValid` from `src/src/hooks/useSipConfig.ts` (lines 41-43):
`!!(sipConfig.url && sipConfig.username && sipConfig.password)` — JS string
truthiness, i.e. all three fields non-empty. -/
def isSipConfigValid (sipConfig : SipConfig) : Bool :=
  sipConfig.url != "" && sipConfig.username != "" && sipConfig.password != ""

/-- The `Web.SimpleUser` signaling-stack client as constructed by `connect`
in `src/src/hooks/useSipConnection.ts`: it is determined by the WebSocket
server URI and the aor string built from the config. -/
structure SimpleUserClient where
  serverUri : String
  aor : String
deriving DecidableEq, Repr

/-- Structural character-list prefix test (JS `String.prototype.startsWith`
semantics), kept computable down to the kernel. -/
def charsStartWith : List Char → List Char → Bool
  | [], _ => true
  | _ :: _, [] => false
  | c :: cs, d :: ds => c == d && charsStartWith cs ds

/-- JS `url.startsWith(pat)` over the shallow string model. -/
def strStartsWith (pat url : String) : Bool :=
  charsStartWith pat.toList url.toList

/-- The scheme-stripping step `config.url.replace(/^(ws|wss):\/\//, '')`
used in `useSipConnection.ts` (line 40): an anchored match removing a
leading `ws://` or `wss://`. -/
def stripWsScheme (url : String) : String :=
  if strStartsWith "wss://" url then String.mk (url.toList.drop 6)
  else if strStartsWith "ws://" url then String.mk (url.toList.drop 5)
  else url

/-- The WebSocket endpoint normalization of `useSipConnection.ts` (lines
35-37): keep the URL if it already carries a `ws://`/`wss://` scheme,
otherwise prepend `wss://`. -/
def serverUriOf (url : String) : String :=
  if strStartsWith "ws://" url || strStartsWith "wss://" url then url
  else "wss://" ++ url

/-- Domain extraction of `useSipConnection.ts` (line 40): strip the
scheme, then `.split('/')[0]`, i.e. the prefix up to the first slash. -/
def domainOf (url : String) : String :=
  String.mk ((stripWsScheme url).toList.takeWhile (fun c => c != '/'))

/-- The `SimpleUser` instance built by `connect` (lines 44-57): server URI
from `serverUriOf`, aor `sip:username:password@domain`. -/
def mkSimpleUser (config : SipConfig) : SimpleUserClient :=
  { serverUri := serverUriOf config.url
    aor := "sip:" ++ config.username ++ ":" ++ config.password ++ "@"
             ++ domainOf config.url }

/-- State owned by `useSipConnection`: the `connectionStatus` useState cell
and the `simpleUserRef` ref. -/
structure SipConnectionState where
  connectionStatus : ConnectionStatus
  simpleUser : Option SimpleUserClient
deriving DecidableEq, Repr

/-- Initial connection-controller state: `'disconnected'`, null ref. -/
def initSipConnection : SipConnectionState :=
  { connectionStatus := .disconnected, simpleUser := none }

/-- The state of `useSipConnection.connect` (lines 29-61) at its first and
only suspension point (`await simpleUser.connect()`): the function begins by
unconditionally setting `connectionStatus` to `'connecting'`, then (purely)
builds the server URI and options, constructs the `SimpleUser` and stores it
in `simpleUserRef` — all before awaiting.  No config validation occurs. -/
def connectAtSuspension (config : SipConfig) (s : SipConnectionState) :
    SipConnectionState :=
  { s with connectionStatus := .connecting
           simpleUser := some (mkSimpleUser config) }

/-- Embeds `connect` from `src/src/hooks/useSipConnection.ts` (lines 29-72), run to
completion.  `connectOk` is the outcome of `await simpleUser.connect()`:
on resolution the status becomes `'connected'`; on rejection the catch
block sets `'error'` and nulls the ref (re-throwing to the caller). -/
def connect (config : SipConfig) (connectOk : Bool)
    (s : SipConnectionState) : SipConnectionState :=
  let s1 := connectAtSuspension config s
  if connectOk then { s1 with connectionStatus := .connected }
  else { s1 with connectionStatus := .error, simpleUser := none }

/-- Embeds `disconnect` from `src/src/hooks/useSipConnection.ts` (lines 77-91).
`stopOk` is the outcome of `await simpleUserRef.current.disconnect()` when a
client exists; with no client the try-body just sets `'disconnected'`. -/
def disconnect (stopOk : Bool) (s : SipConnectionState) :
    SipConnectionState :=
  match s.simpleUser with
  | none => { s with connectionStatus := .disconnected }
  | some _ =>
      if stopOk then
        { s with simpleUser := none, connectionStatus := .disconnected }
      else
        { s with connectionStatus := .error }

/-- State owned by `useCallSession` (`src/unnamed/part_003`): the
`callStatus` and `incomingCallNumber` useState cells, the
`currentSessionRef` ref, plus the shared playback sink driven by the
injected `setupAudioSession` (the `audioRef` cell of `useAudioStream`). -/
structure CallSessionState where
  callStatus : CallStatus
  incomingCallNumber : String
  currentSession : Option Session
  audioRef : Option AudioElement
deriving DecidableEq, Repr

/-- Initial session-controller state: `'idle'`, empty number, null ref; the
audio element exists but has no stream attached. -/
def initCallSession : CallSessionState :=
  { callStatus := .idle
    incomingCallNumber := ""
    currentSession := none
    audioRef := some { srcObject := none, playing := false } }

/-- Embeds `handleSessionStateChange` from `src/unnamed/part_003` (lines 35-51),
the listener body registered on each session (`App.tsx` lines 197-213 is the
same switch): `Established` sets `'in-call'` and runs `setupAudioSession` on
the session the listener was attached to; `Establishing` sets `'calling'`;
`Terminated` sets `'idle'`, nulls the ref and clears the incoming number;
other states fall through. -/
def handleSessionStateChange (state : SessState) (session : Session)
    (s : CallSessionState) : CallSessionState :=
  match state with
  | .established =>
      { s with callStatus := .inCall
               audioRef := setupAudioSession session s.audioRef }
  | .establishing => { s with callStatus := .calling }
  | .terminated =>
      { s with callStatus := .idle
               currentSession := none
               incomingCallNumber := "" }
  | _ => s

/-- The outbound handle `new Inviter(userAgent, targetUri)` created by
`makeCall`: an `Inviter` with no extracted remote user; its media transport
(`newPc`) materializes as the environment negotiates. -/
def mkInviter (newPc : Option PeerConnection) : Session :=
  { variant := .inviter, remoteUser := none, pc := newPc }

/-- Embeds `makeCall` from `src/unnamed/part_003` (lines 56-93) (`handleCall` in
`App.tsx` lines 176-223 is the same logic).  Guard: returns unchanged when
the user agent is null or the dialed number empty (JS falsiness).  Then it
sets `'calling'`, builds the target URI (`uriOk` is whether
`UserAgent.makeURI` succeeded; `null` throws), creates the `Inviter`,
stores it in the ref, registers the listener, and awaits `invite()`
(outcome `inviteOk`).  The catch block sets `'idle'` and nulls the ref.
Note: no check of `callStatus` anywhere. -/
def makeCall (dialedNumber : String) (hasUserAgent : Bool) (uriOk : Bool)
    (inviteOk : Bool) (newPc : Option PeerConnection)
    (s : CallSessionState) : CallSessionState :=
  if !hasUserAgent || dialedNumber == "" then s
  else if !uriOk then
    { s with callStatus := .idle, currentSession := none }
  else if !inviteOk then
    { s with callStatus := .idle, currentSession := none }
  else
    { s with callStatus := .calling
             currentSession := some (mkInviter newPc) }

/-- Embeds `answerCall` from `src/unnamed/part_003` (lines 98-113)
(`handleAnswerCall` in `App.tsx` lines 228-242 is identical).  Guard:
returns unchanged when the ref is null or not an `Invitation`.  On
`await accept()` resolving (`acceptOk = true`) it sets `'in-call'` and runs
`setupAudioSession` on the stored session; on rejection the catch block
sets `'idle'` — and does not touch the ref. -/
def answerCall (acceptOk : Bool) (s : CallSessionState) : CallSessionState :=
  match s.currentSession with
  | none => s
  | some session =>
      if session.variant != .invitation then s
      else if acceptOk then
        { s with callStatus := .inCall
                 audioRef := setupAudioSession session s.audioRef }
      else { s with callStatus := .idle }

/-- Which sip.js termination primitive `hangupCall` invokes
(`src/unnamed/part_003` lines 126-131, `App.tsx` lines 255-259): `if
(currentSessionRef.current instanceof Inviter) await ...bye(); else if
(... instanceof Invitation) await ...bye();` — both branches call `bye()`;
the call state is never consulted and `cancel()` is never invoked. -/
def hangupSelectedPrimitive (s : CallSessionState) : Option String :=
  match s.currentSession with
  | none => none
  | some session =>
      match session.variant with
      | .inviter => some "bye"
      | .invitation => some "bye"

/-- The state of `hangupCall` (`src/unnamed/part_003` lines 118-142) at its
suspension point: past the null-ref guard it sets `'ending'` and then
awaits the termination primitive. -/
def hangupCallAtSuspension (s : CallSessionState) : CallSessionState :=
  match s.currentSession with
  | none => s
  | some _ => { s with callStatus := .ending }

/-- Embeds `hangupCall` from `src/unnamed/part_003` (lines 118-142) run to
completion (`handleHangup` in `App.tsx` lines 247-269 is the same logic).
Null-ref guard returns unchanged.  Otherwise: `'ending'`, await `bye()`
(outcome `byeOk`); on resolution null the ref, set `'idle'`, clear the
incoming number; the catch block sets `'idle'` only — the ref and the
number are left as they were.  The audio element is never touched. -/
def hangupCall (byeOk : Bool) (s : CallSessionState) : CallSessionState :=
  match s.currentSession with
  | none => s
  | some _ =>
      let s1 := { s with callStatus := CallStatus.ending }
      if byeOk then
        { s1 with currentSession := none
                  callStatus := .idle
                  incomingCallNumber := "" }
      else { s1 with callStatus := .idle }

/-- Embeds `handleIncomingCall` from `src/unnamed/part_003` (lines 147-157)
(`onInvite` in `App.tsx` lines 142-152 is the same, plus a demo auto-answer
timer): unconditionally stores the caller's user part (placeholder `不明`
when absent), sets `'ringing'`, and overwrites the ref with the new
invitation.  No busy check, no decline. -/
def handleIncomingCall (invitation : Session) (s : CallSessionState) :
    CallSessionState :=
  { s with incomingCallNumber := invitation.remoteUser.getD "不明"
           callStatus := .ringing
           currentSession := some invitation }

/-- C10: for every field in {url, username, password} and every string
value, `updateSipConfig` sets exactly that field to the value and leaves
the other two fields of the config unchanged. -/
theorem updateSipConfig_frame :
    ∀ (value : String) (prev : SipConfig),
      ((updateSipConfig .url value prev).url = value
        ∧ (updateSipConfig .url value prev).username = prev.username
        ∧ (updateSipConfig .url value prev).password = prev.password)
      ∧ ((updateSipConfig .username value prev).username = value
        ∧ (updateSipConfig .username value prev).url = prev.url
        ∧ (updateSipConfig .username value prev).password = prev.password)
      ∧ ((updateSipConfig .password value prev).password = value
        ∧ (updateSipConfig .password value prev).url = prev.url
        ∧ (updateSipConfig .password value prev).username = prev.username) := by
  intro value prev
  exact ⟨⟨rfl, rfl, rfl⟩, ⟨rfl, rfl, rfl⟩, ⟨rfl, rfl, rfl⟩⟩

/-- C9: `setupAudioSession` leaves the sink unchanged when the media
transport cannot be retrieved or when the composite stream built from the
inbound receivers has no track, and otherwise assigns that stream to the
sink and starts playback. -/
theorem setupAudioSession_spec :
    ∀ (session : Session) (audioRef : Option AudioElement),
      (session.pc = none → setupAudioSession session audioRef = audioRef)
      ∧ (∀ peerConnection, session.pc = some peerConnection →
           peerConnection.receivers = [] →
           setupAudioSession session audioRef = audioRef)
      ∧ (∀ peerConnection audioElem,
           session.pc = some peerConnection →
           audioRef = some audioElem →
           peerConnection.receivers ≠ [] →
           setupAudioSession session audioRef =
             some { srcObject := some (peerConnection.receivers.map
                      (fun receiver => receiver.track))
                    playing := true }) := by
  intro session audioRef
  refine ⟨?_, ?_, ?_⟩
  · intro h
    cases audioRef <;> simp [setupAudioSession, h]
  · intro peerConnection h1 h2
    cases audioRef <;> simp [setupAudioSession, h1, h2]
  · intro peerConnection audioElem h1 h2 h3
    subst h2
    have hlen : 0 < (peerConnection.receivers.map
        (fun receiver => receiver.track)).length := by
      simpa using List.length_pos.mpr h3
    simp only [setupAudioSession, h1]
    rw [if_pos hlen]

/-- C9 witness: a session with one inbound receiver and an idle sink gets
the one-track stream attached and playing. -/
theorem setupAudioSession_spec_witness :
    ({ variant := .invitation, remoteUser := some "100",
       pc := some { receivers := [{ track := { id := 0 } }] } } : Session).pc
      = some { receivers := [{ track := { id := 0 } }] }
    ∧ ({ receivers := [{ track := { id := 0 } }] } : PeerConnection).receivers ≠ []
    ∧ setupAudioSession
        { variant := .invitation, remoteUser := some "100",
          pc := some { receivers := [{ track := { id := 0 } }] } }
        (some { srcObject := none, playing := false })
        = some { srcObject := some [{ id := 0 }], playing := true } := by
  refine ⟨rfl, by decide, ?_⟩
  exact (setupAudioSession_spec
    { variant := .invitation, remoteUser := some "100",
      pc := some { receivers := [{ track := { id := 0 } }] } }
    (some { srcObject := none, playing := false })).2.2
    { receivers := [{ track := { id := 0 } }] }
    { srcObject := none, playing := false }
    rfl rfl (by decide)

/-- C3 counterexample: calling `connect` with the all-empty config from the
initial (Disconnected) state does transition Connection State — it is
`Connecting` at the suspension point (and `Error`, not `Disconnected`, when
the stack's connect then fails), with no `ConfigInvalid` rejection before
suspension.  This refutes the claim that Connection State remains
unchanged. -/
theorem connect_empty_config_cex :
    (connectAtSuspension { url := "", username := "", password := "" }
        initSipConnection).connectionStatus = .connecting
    ∧ initSipConnection.connectionStatus = .disconnected
    ∧ (connect { url := "", username := "", password := "" } false
        initSipConnection).connectionStatus = .error
    ∧ isSipConfigValid { url := "", username := "", password := "" } = false := by
  exact ⟨rfl, rfl, rfl, rfl⟩

/-- C3 amended: `connect` performs no config validation and raises no
`ConfigInvalid` error: for every config — including ones with empty url,
username or password — it transitions Connection State to `Connecting` and
stores a freshly built client before its first suspension; the non-empty
check exists only as the separate `isSipConfigValid` predicate (true
exactly when all three fields are non-empty), which the UI uses to gate
invoking `connect`. -/
theorem connect_no_validation :
    ∀ (config : SipConfig) (s : SipConnectionState),
      (connectAtSuspension config s).connectionStatus = .connecting
      ∧ (connectAtSuspension config s).simpleUser = some (mkSimpleUser config)
      ∧ (isSipConfigValid config = true ↔
          (config.url ≠ "" ∧ config.username ≠ "" ∧ config.password ≠ "")) := by
  intro config s
  refine ⟨rfl, rfl, ?_⟩
  simp [isSipConfigValid, and_assoc]

/-- C7 counterexample: calling `connect` while Connection State is
`Connected` with an existing client does construct and store a second
client: the reference afterwards holds the client built from the new
config, which differs from the existing one.  This refutes the claim that
the controller refuses and leaves the existing client unchanged. -/
theorem connect_while_connected_cex :
    (connect { url := "b.example", username := "u", password := "p" } true
        { connectionStatus := .connected
          simpleUser := some (mkSimpleUser
            { url := "a.example", username := "u", password := "p" }) }
      ).simpleUser
      = some (mkSimpleUser
          { url := "b.example", username := "u", password := "p" })
    ∧ mkSimpleUser { url := "b.example", username := "u", password := "p" }
        ≠ mkSimpleUser { url := "a.example", username := "u", password := "p" } := by
  refine ⟨rfl, ?_⟩
  decide

/-- C7 amended: `connect` has no guard against an existing client or the
`Connected` state: from every prior state it unconditionally builds the
client from the config and overwrites the reference, ending in
(`Connected`, new client) when the stack connect resolves and (`Error`,
null reference) when it rejects; the no-op-with-error refusal exists only
as the UI toggle that routes to `disconnect` when already connected. -/
theorem connect_overwrites_client :
    ∀ (config : SipConfig) (s : SipConnectionState),
      connect config true s
        = { connectionStatus := .connected
            simpleUser := some (mkSimpleUser config) }
      ∧ connect config false s
        = { connectionStatus := .error, simpleUser := none } := by
  intro config s
  exact ⟨rfl, rfl⟩

/-- C1: the invariant "Call State ≠ Idle ⇔ Session Handle non-null" is
violated on a reachable execution: deliver an inbound invitation in Idle
(state becomes Ringing with the handle stored), then run `answerCall` with
the `accept()` primitive rejecting — the catch block sets Call State to
Idle but leaves the handle in place, so Idle holds with a non-null
(dangling) handle. -/
theorem answerCall_failure_dangling_handle :
    (answerCall false (handleIncomingCall
        { variant := .invitation, remoteUser := some "100", pc := none }
        initCallSession)).callStatus = .idle
    ∧ (answerCall false (handleIncomingCall
        { variant := .invitation, remoteUser := some "100", pc := none }
        initCallSession)).currentSession
      = some { variant := .invitation, remoteUser := some "100", pc := none }
    ∧ (hangupCall false (handleIncomingCall
        { variant := .invitation, remoteUser := some "100", pc := none }
        initCallSession)).callStatus = .idle
    ∧ (hangupCall false (handleIncomingCall
        { variant := .invitation, remoteUser := some "100", pc := none }
        initCallSession)).currentSession
      = some { variant := .invitation, remoteUser := some "100", pc := none } := by
  exact ⟨rfl, rfl, rfl, rfl⟩

/-- C5: the termination primitive `hangupCall` invokes does not depend on
the Call State: with an outbound `Inviter` handle it is `bye` both while
`Calling` and while `InCall` — the `instanceof` dispatch calls `bye()` in
both branches and `cancel()` nowhere, contradicting the required
cancel-before-answer selection during `Calling`. -/
theorem hangup_primitive_always_bye :
    hangupSelectedPrimitive
      { callStatus := .calling, incomingCallNumber := ""
        currentSession := some (mkInviter none), audioRef := none }
      = some "bye"
    ∧ hangupSelectedPrimitive
      { callStatus := .inCall, incomingCallNumber := ""
        currentSession := some (mkInviter none), audioRef := none }
      = some "bye"
    ∧ (∀ s : CallSessionState,
        hangupSelectedPrimitive s = none ∨ hangupSelectedPrimitive s = some "bye") := by
  refine ⟨rfl, rfl, ?_⟩
  intro s
  cases hcs : s.currentSession with
  | none => exact Or.inl (by simp [hangupSelectedPrimitive, hcs])
  | some session =>
      cases hv : session.variant
      all_goals exact Or.inr (by simp [hangupSelectedPrimitive, hcs, hv])

/-- C6 counterexample: an inbound invitation (from "bob") delivered while
Call State is `InCall` with an existing session (from "alice") is not
declined: the handler sets Call State to `Ringing`, replaces the Session
Handle with the new invitation, and overwrites the Remote Party Identifier
— nothing of the original state is preserved. -/
theorem incoming_while_in_call_cex :
    handleIncomingCall
      { variant := .invitation, remoteUser := some "bob", pc := none }
      { callStatus := .inCall, incomingCallNumber := "alice"
        currentSession :=
          some { variant := .invitation, remoteUser := some "alice", pc := none }
        audioRef := none }
    = { callStatus := .ringing, incomingCallNumber := "bob"
        currentSession :=
          some { variant := .invitation, remoteUser := some "bob", pc := none }
        audioRef := none }
    ∧ CallStatus.ringing ≠ CallStatus.inCall := by
  refine ⟨rfl, ?_⟩
  decide

/-- C6 amended: an inbound session notification delivered in any Call State
(including `Ringing` and `InCall`) is never declined: the handler
unconditionally sets Call State to `Ringing`, stores the new invitation as
the Session Handle (replacing any previous one), and overwrites the Remote
Party Identifier with the new caller's user part (placeholder `不明` when
absent); the previous session is simply dropped. -/
theorem handleIncomingCall_overwrites :
    ∀ (invitation : Session) (s : CallSessionState),
      handleIncomingCall invitation s
        = { s with callStatus := .ringing
                   incomingCallNumber := invitation.remoteUser.getD "不明"
                   currentSession := some invitation } := by
  intro invitation s
  rfl

/-- C2 counterexample: `makeCall` invoked while Call State is `InCall`
(session from "100" stored) with a valid user agent, a non-empty number and
succeeding primitives does not fail: it sets Call State to `Calling` and
replaces the stored Session Handle with the new `Inviter` — no
`ConflictingSession` rejection, state not unchanged. -/
theorem makeCall_while_busy_cex :
    makeCall "5678" true true true none
      { callStatus := .inCall, incomingCallNumber := "100"
        currentSession :=
          some { variant := .invitation, remoteUser := some "100", pc := none }
        audioRef := some { srcObject := none, playing := false } }
    = { callStatus := .calling, incomingCallNumber := "100"
        currentSession := some (mkInviter none)
        audioRef := some { srcObject := none, playing := false } }
    ∧ CallStatus.calling ≠ CallStatus.inCall
    ∧ some (mkInviter none)
        ≠ some { variant := SessionVariant.invitation
                 remoteUser := some "100", pc := none } := by
  refine ⟨rfl, by decide, by decide⟩

/-- C2 amended: `makeCall` does not consult the Call State at all.  It
fails without any state change only when the user agent is null or the
dialed number is empty; invoked while Call State ≠ `Idle` with a user
agent, a non-empty number and succeeding URI construction and `invite()`,
it proceeds: Call State becomes `Calling` and the stored Session Handle is
replaced by the new outbound `Inviter` (the Remote Party Identifier cell is
left untouched).  Only the UI's button dispatch, which does not offer the
call action while non-Idle, prevents origination during a call. -/
theorem makeCall_no_busy_guard (dialedNumber : String)
    (newPc : Option PeerConnection) (s : CallSessionState)
    (hnum : dialedNumber ≠ "") (hbusy : s.callStatus ≠ .idle) :
    (makeCall dialedNumber true true true newPc s).callStatus = .calling
    ∧ (makeCall dialedNumber true true true newPc s).currentSession
        = some (mkInviter newPc)
    ∧ (makeCall dialedNumber true true true newPc s).incomingCallNumber
        = s.incomingCallNumber
    ∧ (∀ uriOk inviteOk : Bool,
        makeCall dialedNumber false uriOk inviteOk newPc s = s)
    ∧ (∀ uriOk inviteOk : Bool,
        makeCall "" true uriOk inviteOk newPc s = s) := by
  have hbeq : (dialedNumber == "") = false := by
    simp [hnum]
  refine ⟨?_, ?_, ?_, ?_, ?_⟩
  · simp [makeCall, hbeq]
  · simp [makeCall, hbeq]
  · simp [makeCall, hbeq]
  · intro uriOk inviteOk; rfl
  · intro uriOk inviteOk; rfl

/-- C2 witness: instantiating the amended theorem while `Ringing`. -/
theorem makeCall_no_busy_guard_witness :
    ("5678" : String) ≠ ""
    ∧ ({ callStatus := .ringing, incomingCallNumber := "9"
         currentSession :=
           some { variant := .invitation, remoteUser := some "9", pc := none }
         audioRef := none } : CallSessionState).callStatus ≠ .idle
    ∧ (makeCall "5678" true true true none
        { callStatus := .ringing, incomingCallNumber := "9"
          currentSession :=
            some { variant := .invitation, remoteUser := some "9", pc := none }
          audioRef := none }).callStatus = .calling := by
  refine ⟨by decide, by decide, ?_⟩
  exact (makeCall_no_busy_guard "5678" none
    { callStatus := .ringing, incomingCallNumber := "9"
      currentSession :=
        some { variant := .invitation, remoteUser := some "9", pc := none }
      audioRef := none } (by decide) (by decide)).1

/-- C4 counterexample: a completed `terminate()` from `InCall` leaves the
Media Bridge binding fully in place: the sink still holds the attached
one-track stream and is still playing after `hangupCall` succeeds — tracks
are not stopped and the sink is not detached, refuting the release clause
of the claim. -/
theorem hangup_media_not_released_cex :
    hangupCall true
      { callStatus := .inCall, incomingCallNumber := "100"
        currentSession :=
          some { variant := .invitation, remoteUser := some "100"
                 pc := some { receivers := [{ track := { id := 0 } }] } }
        audioRef := some { srcObject := some [{ id := 0 }], playing := true } }
    = { callStatus := .idle, incomingCallNumber := ""
        currentSession := none
        audioRef := some { srcObject := some [{ id := 0 }], playing := true } } := by
  rfl

/-- C4 amended: `terminate()` from `{Calling, Ringing, InCall}` with a
non-null handle sets Call State to `Ending` before the termination
primitive suspends, and on successful completion sets `Idle`, clears the
Session Handle and clears the Remote Party Identifier — but the Media
Bridge binding is not released: the code has no release operation, so the
sink keeps its stream and playback state unchanged. -/
theorem hangupCall_state_cleanup (s : CallSessionState)
    (hsession : s.currentSession ≠ none)
    (hstate : s.callStatus = .calling ∨ s.callStatus = .ringing
      ∨ s.callStatus = .inCall) :
    (hangupCallAtSuspension s).callStatus = .ending
    ∧ hangupCall true s
        = { s with callStatus := .idle
                   currentSession := none
                   incomingCallNumber := "" }
    ∧ (hangupCall true s).audioRef = s.audioRef := by
  cases hcs : s.currentSession with
  | none => exact absurd hcs hsession
  | some session =>
      refine ⟨?_, ?_, ?_⟩
      · simp [hangupCallAtSuspension, hcs]
      · simp [hangupCall, hcs]
      · simp [hangupCall, hcs]

/-- C4 witness: instantiating the amended theorem at a concrete `InCall`
state with a stored invitation and playing sink. -/
theorem hangupCall_state_cleanup_witness :
    ({ callStatus := .inCall, incomingCallNumber := "7"
       currentSession :=
         some { variant := .invitation, remoteUser := some "7", pc := none }
       audioRef := some { srcObject := some [{ id := 1 }], playing := true } }
      : CallSessionState).currentSession ≠ none
    ∧ (hangupCall true
        { callStatus := .inCall, incomingCallNumber := "7"
          currentSession :=
            some { variant := .invitation, remoteUser := some "7", pc := none }
          audioRef := some { srcObject := some [{ id := 1 }], playing := true } }
      ).audioRef
      = some { srcObject := some [{ id := 1 }], playing := true } := by
  refine ⟨by decide, ?_⟩
  exact (hangupCall_state_cleanup
    { callStatus := .inCall, incomingCallNumber := "7"
      currentSession :=
        some { variant := .invitation, remoteUser := some "7", pc := none }
      audioRef := some { srcObject := some [{ id := 1 }], playing := true } }
    (by decide) (Or.inr (Or.inr rfl))).2.2

/-- C8: termination is idempotent and the two teardown paths converge.
From any state with a stored handle, a successful local `terminate()` and a
stack-reported `Terminated` callback (from whichever session the listener
was registered on) produce the same cleanup state (`Idle`, null handle,
cleared identifier); running either path again after the other is a no-op;
and neither path touches the media sink, so no duplicate Media Bridge
release (there is none at all) can error. -/
theorem terminate_idempotent_convergence (s : CallSessionState)
    (session listenerSession : Session)
    (hsession : s.currentSession = some session) :
    hangupCall true s
      = handleSessionStateChange .terminated listenerSession s
    ∧ hangupCall true (hangupCall true s) = hangupCall true s
    ∧ handleSessionStateChange .terminated listenerSession (hangupCall true s)
        = hangupCall true s
    ∧ hangupCall true
        (handleSessionStateChange .terminated listenerSession s)
        = handleSessionStateChange .terminated listenerSession s
    ∧ (hangupCall true s).audioRef = s.audioRef
    ∧ (handleSessionStateChange .terminated listenerSession s).audioRef
        = s.audioRef := by
  refine ⟨?_, ?_, ?_, ?_, ?_, ?_⟩
  all_goals simp [hangupCall, handleSessionStateChange, hsession]

/-- C8 witness: instantiating the convergence theorem at a concrete
`InCall` state with a stored invitation. -/
theorem terminate_idempotent_convergence_witness :
    ({ callStatus := .inCall, incomingCallNumber := "8"
       currentSession :=
         some { variant := .invitation, remoteUser := some "8", pc := none }
       audioRef := none } : CallSessionState).currentSession
      = some { variant := .invitation, remoteUser := some "8", pc := none }
    ∧ hangupCall true (hangupCall true
        { callStatus := .inCall, incomingCallNumber := "8"
          currentSession :=
            some { variant := .invitation, remoteUser := some "8", pc := none }
          audioRef := none })
      = hangupCall true
        { callStatus := .inCall, incomingCallNumber := "8"
          currentSession :=
            some { variant := .invitation, remoteUser := some "8", pc := none }
          audioRef := none } := by
  refine ⟨rfl, ?_⟩
  exact (terminate_idempotent_convergence
    { callStatus := .inCall, incomingCallNumber := "8"
      currentSession :=
        some { variant := .invitation, remoteUser := some "8", pc := none }
      audioRef := none }
    { variant := .invitation, remoteUser := some "8", pc := none }
    { variant := .invitation, remoteUser := some "8", pc := none }
    rfl).2.1

end SipApp
